import Mathlib

/-!
Shallow embedding of the smart_ev_optimizer decision pipeline
(custom_components/smart_ev_optimizer: vehicle.py, safety.py, optimizer.py,
power_manager.py, coordinator.py) and proofs about it.

Python floats are modelled as rationals, Python ints as integers, and the
two clock reads (datetime.now(UTC) in the calendar-hour tracker,
time.monotonic() in the OBC cooldown tracker) as explicit fields of the
pipeline context, so every embedded operation is a pure function of its
arguments.
-/

/-- Python int() applied to a float: truncation toward zero. -/
def truncQ (q : ℚ) : ℤ := if q < 0 then -⌊-q⌋ else ⌊q⌋

/-- MIN_CHARGING_AMPS from power_manager.py. -/
def MIN_CHARGING_AMPS : ℤ := 6

/-- NUM_PHASES from power_manager.py. -/
def NUM_PHASES : ℤ := 3

/-- VOLTAGE from power_manager.py. -/
def VOLTAGE : ℤ := 230

/-- SAFE_MODE_MAX_AMPS from safety.py. -/
def SAFE_MODE_MAX_AMPS : ℤ := 6

/-- OBC_COOLDOWN_SECONDS from const.py. -/
def OBC_COOLDOWN_SECONDS : ℚ := 30

/-- VehicleState from vehicle.py (datetime departure modelled as seconds). -/
structure VehicleState where
  vehicle_id : String
  name : String
  priority : ℤ
  target_soc : ℤ
  current_soc : Option ℤ
  departure_time : Option ℕ
  is_connected : Bool
  soc_source_type : String
  soc_entity_id : Option String
  charger_entity_id : String
  allocated_amps : ℤ
  allocated_phases : ℤ
deriving DecidableEq

/-- VehicleState.needs_charge property from vehicle.py. -/
def VehicleState.needs_charge (v : VehicleState) : Bool :=
  if ¬ v.is_connected then false
  else
    match v.current_soc with
    | none => true
    | some soc => decide (soc < v.target_soc)

/-- PowerAllocation from power_manager.py. -/
structure PowerAllocation where
  vehicle_id : String
  amps : ℤ
  phases : ℤ
deriving DecidableEq

/-- CalendarHourTracker state from power_manager.py: retained watt samples
plus the hour (0-23) of the most recent sample. -/
structure CalendarHourTracker where
  samples : List ℚ
  current_hour : Option ℕ
deriving DecidableEq

/-- The hour-of-day (0-23) of a UTC timestamp given in seconds, as read by
datetime.now(UTC).hour in power_manager.py. -/
def hourOfDay (sec : ℕ) : ℕ := sec / 3600 % 24

/-- CalendarHourTracker.add_sample from power_manager.py, with the wall
clock reading passed explicitly as seconds since the epoch. -/
def CalendarHourTracker.add_sample (tr : CalendarHourTracker) (nowSec : ℕ)
    (watts : ℚ) : CalendarHourTracker :=
  let h := hourOfDay nowSec
  let kept :=
    match tr.current_hour with
    | some ch => if h ≠ ch then [] else tr.samples
    | none => tr.samples
  { samples := kept ++ [watts], current_hour := some h }

/-- CalendarHourTracker.average_kw from power_manager.py. -/
def CalendarHourTracker.average_kw (tr : CalendarHourTracker) : ℚ :=
  if tr.samples = [] then 0
  else (tr.samples.sum / tr.samples.length) / 1000

/-- CalendarHourTracker.available_capacity_kw from power_manager.py. -/
def CalendarHourTracker.available_capacity_kw (tr : CalendarHourTracker)
    (power_limit_kw : ℚ) : ℚ :=
  max 0 (power_limit_kw - tr.average_kw)

/-- CalendarHourTracker.sample_count from power_manager.py. -/
def CalendarHourTracker.sample_count (tr : CalendarHourTracker) : ℕ :=
  tr.samples.length

/-- Ghost variant of the calendar-hour tracker whose retained samples keep
the timestamp they were recorded at, used to state which wall-clock hour
each retained sample came from.  Same reset logic as add_sample. -/
structure TimedTracker where
  samples : List (ℕ × ℚ)
  current_hour : Option ℕ
deriving DecidableEq

/-- Ghost add_sample: identical control flow to
CalendarHourTracker.add_sample, but retains (timestamp, watts) pairs. -/
def TimedTracker.add_sample (tr : TimedTracker) (nowSec : ℕ)
    (watts : ℚ) : TimedTracker :=
  let h := hourOfDay nowSec
  let kept :=
    match tr.current_hour with
    | some ch => if h ≠ ch then [] else tr.samples
    | none => tr.samples
  { samples := kept ++ [(nowSec, watts)], current_hour := some h }

/-- Run a fresh CalendarHourTracker over a trace of (timestamp, watts)
samples. -/
def runTrackerTrace (trace : List (ℕ × ℚ)) : CalendarHourTracker :=
  trace.foldl (fun tr tw => tr.add_sample tw.1 tw.2) ⟨[], none⟩

/-- Run a fresh ghost tracker over a trace of (timestamp, watts) samples. -/
def runTimedTrace (trace : List (ℕ × ℚ)) : TimedTracker :=
  trace.foldl (fun tr tw => tr.add_sample tw.1 tw.2) ⟨[], none⟩

/-- The (timestamp, watts) samples retained after a trace. -/
def retainedSamples (trace : List (ℕ × ℚ)) : List (ℕ × ℚ) :=
  (runTimedTrace trace).samples

/-- OBCCooldownTracker state from safety.py: monotonic start time per
charger id. -/
structure OBCCooldownTracker where
  cooldowns : List (String × ℚ)
deriving DecidableEq

/-- OBCCooldownTracker.is_active from safety.py, with the monotonic clock
reading passed explicitly. -/
def OBCCooldownTracker.is_active (tr : OBCCooldownTracker) (monoNow : ℚ)
    (charger_id : String) : Bool :=
  match tr.cooldowns.find? (fun e => e.1 == charger_id) with
  | none => false
  | some e => decide (monoNow - e.2 < OBC_COOLDOWN_SECONDS)

/-- SafetyResult from safety.py. -/
structure SafetyResult where
  allow_charging : Bool
  reason : String
  safe_mode : Bool
  max_amps : Option ℤ
deriving DecidableEq

/-- SafetyCheck.evaluate from safety.py.  In the Python source safe_mode
defaults to False and max_amps to None; the record fields are written out
explicitly here. -/
def SafetyCheck.evaluate (grid_rewards_active : Bool) (battery_power_w : ℚ)
    (grid_meter_available : Bool) (obc_cooldown_active : Bool) : SafetyResult :=
  if grid_rewards_active ∧ battery_power_w < 0 then
    { allow_charging := false, reason := "grid_rewards_active_battery_exporting",
      safe_mode := false, max_amps := none }
  else if obc_cooldown_active then
    { allow_charging := false, reason := "obc_cooldown_active",
      safe_mode := false, max_amps := none }
  else if ¬ grid_meter_available then
    { allow_charging := true, reason := "grid_meter_unavailable_safe_mode",
      safe_mode := true, max_amps := some SAFE_MODE_MAX_AMPS }
  else
    { allow_charging := true, reason := "all_clear",
      safe_mode := false, max_amps := none }

/-- OpportunityCostResult from optimizer.py. -/
structure OpportunityCostResult where
  should_charge_now : Bool
  export_revenue : ℚ
  night_charge_cost : ℚ
  reason : String
deriving DecidableEq

/-- find_cheapest_night_price from optimizer.py: minimum price of the
(timestamp, price) pairs, or none for an empty list. -/
def find_cheapest_night_price (prices : List (ℕ × ℚ)) : Option ℚ :=
  match prices.map Prod.snd with
  | [] => none
  | p :: ps => some (ps.foldl min p)

/-- evaluate_opportunity_cost from optimizer.py. -/
def evaluate_opportunity_cost (current_export_price : ℚ)
    (cheapest_night_import_price : Option ℚ) (grid_fee_import : ℚ)
    (grid_fee_export : ℚ) (export_compensation : ℚ)
    (vat_rate : ℚ) : OpportunityCostResult :=
  let export_revenue := current_export_price + export_compensation - grid_fee_export
  match cheapest_night_import_price with
  | none =>
    { should_charge_now := true, export_revenue := export_revenue,
      night_charge_cost := 0, reason := "no_night_prices_available" }
  | some p =>
    let night_charge_cost := (p + grid_fee_import) * (1 + vat_rate)
    if export_revenue > night_charge_cost then
      { should_charge_now := false, export_revenue := export_revenue,
        night_charge_cost := night_charge_cost, reason := "export_more_profitable" }
    else
      { should_charge_now := true, export_revenue := export_revenue,
        night_charge_cost := night_charge_cost, reason := "charging_now_cheaper" }

/-- Insert a vehicle after all vehicles of lower-or-equal priority number:
together with sortByPriority this models the stable ascending sort
sorted(vehicles, key=lambda v: v.priority) in power_manager.py. -/
def insertByPriority (v : VehicleState) : List VehicleState → List VehicleState
  | [] => [v]
  | w :: ws =>
    if w.priority ≤ v.priority then w :: insertByPriority v ws
    else v :: w :: ws

/-- Stable sort of vehicles ascending by priority number. -/
def sortByPriority (l : List VehicleState) : List VehicleState :=
  l.foldl (fun acc v => insertByPriority v acc) []

/-- The allocation loop of allocate_power_to_vehicles from power_manager.py,
over the already-sorted vehicle list; returns the allocations and the final
remaining capacity. -/
def allocGo (fuse_size : ℤ) : ℚ → List VehicleState → List PowerAllocation × ℚ
  | remaining_kw, [] => ([], remaining_kw)
  | remaining_kw, v :: rest =>
    if ¬ v.needs_charge ∨ ¬ v.is_connected then
      let r := allocGo fuse_size remaining_kw rest
      (⟨v.vehicle_id, 0, NUM_PHASES⟩ :: r.1, r.2)
    else
      let max_amps_from_capacity :=
        truncQ (remaining_kw * 1000 / ((VOLTAGE * NUM_PHASES : ℤ) : ℚ))
      if max_amps_from_capacity < MIN_CHARGING_AMPS then
        let r := allocGo fuse_size remaining_kw rest
        (⟨v.vehicle_id, 0, NUM_PHASES⟩ :: r.1, r.2)
      else
        let amps := min max_amps_from_capacity fuse_size
        let allocated_kw := ((amps * VOLTAGE * NUM_PHASES : ℤ) : ℚ) / 1000
        let r := allocGo fuse_size (remaining_kw - allocated_kw) rest
        (⟨v.vehicle_id, amps, NUM_PHASES⟩ :: r.1, r.2)

/-- allocate_power_to_vehicles from power_manager.py (fuse_size defaults to
20 in the source; it is passed explicitly here). -/
def allocate_power_to_vehicles (vehicles : List VehicleState)
    (available_capacity_kw : ℚ) (fuse_size : ℤ) : List PowerAllocation :=
  (allocGo fuse_size available_capacity_kw (sortByPriority vehicles)).1

/-- Total power of a list of allocations in kW: amps * 230 * 3 / 1000 per
allocation, the three-phase power formula of power_manager.py. -/
def total_allocated_kw (allocs : List PowerAllocation) : ℚ :=
  (allocs.map (fun a => ((a.amps * 230 * 3 : ℤ) : ℚ) / 1000)).sum

/-- PipelineContext from coordinator.py, with the two clock reads made
explicit (utc_now_sec for the calendar-hour tracker, mono_now for the OBC
cooldown tracker). -/
structure PipelineContext where
  grid_power_w : ℚ
  solar_power_w : ℚ
  battery_power_w : ℚ
  battery_soc : ℤ
  grid_rewards_active : Bool
  grid_meter_available : Bool
  current_export_price : ℚ
  current_import_price : ℚ
  night_prices : List (ℕ × ℚ)
  grid_fee_import : ℚ
  grid_fee_export : ℚ
  export_compensation : ℚ
  vat_rate : ℚ
  power_limit_kw : ℚ
  vehicles : List VehicleState
  obc_tracker : OBCCooldownTracker
  calendar_hour_tracker : CalendarHourTracker
  force_charge_vehicles : List String
  last_commands : List (String × String)
  utc_now_sec : ℕ
  mono_now : ℚ
deriving DecidableEq

/-- SmartEVOptimizerData from coordinator.py (the per-cycle result
snapshot). -/
structure SmartEVOptimizerData where
  grid_power_w : ℚ
  solar_power_w : ℚ
  battery_power_w : ℚ
  battery_soc : ℤ
  current_export_price : ℚ
  current_import_price : ℚ
  cheapest_night_price : Option ℚ
  night_prices : List (ℕ × ℚ)
  grid_fee_import : ℚ
  grid_fee_export : ℚ
  export_compensation : ℚ
  vat_rate : ℚ
  grid_rewards_active : Bool
  grid_meter_available : Bool
  calendar_hour_avg_kw : ℚ
  available_capacity_kw : ℚ
  power_limit_kw : ℚ
  vehicles : List VehicleState
  decision_reason : String
  last_commands : List (String × String)
  opportunity_export_revenue : ℚ
  opportunity_night_cost : ℚ
deriving DecidableEq

/-- The any(...) over OBC cooldowns at pipeline step 1 in coordinator.py. -/
def any_obc_active (ctx : PipelineContext) : Bool :=
  ctx.vehicles.any (fun v => ctx.obc_tracker.is_active ctx.mono_now v.charger_entity_id)

/-- One write-back step of the nested loops in coordinator.py steps 3 and 4:
copy one allocation onto every vehicle with a matching id. -/
def applyAllocationStep (vs : List VehicleState) (a : PowerAllocation) :
    List VehicleState :=
  vs.map (fun v =>
    if v.vehicle_id = a.vehicle_id then
      { v with allocated_amps := a.amps, allocated_phases := a.phases }
    else v)

/-- The full write-back loop: fold every allocation over the vehicle list. -/
def applyAllocations (allocs : List PowerAllocation)
    (vs : List VehicleState) : List VehicleState :=
  allocs.foldl applyAllocationStep vs

/-- _build_result from coordinator.py; the mutated tracker and vehicle list
are passed explicitly, and the two opportunity figures (assigned after
_build_result in run_decision_pipeline, defaulting to 0.0 on the blocked
path) are taken as arguments. -/
def build_result (ctx : PipelineContext) (tracker : CalendarHourTracker)
    (vehicles : List VehicleState) (cheapest_night : Option ℚ)
    (reason : String) (export_revenue : ℚ)
    (night_cost : ℚ) : SmartEVOptimizerData :=
  { grid_power_w := ctx.grid_power_w
    solar_power_w := ctx.solar_power_w
    battery_power_w := ctx.battery_power_w
    battery_soc := ctx.battery_soc
    current_export_price := ctx.current_export_price
    current_import_price := ctx.current_import_price
    cheapest_night_price := cheapest_night
    night_prices := ctx.night_prices
    grid_fee_import := ctx.grid_fee_import
    grid_fee_export := ctx.grid_fee_export
    export_compensation := ctx.export_compensation
    vat_rate := ctx.vat_rate
    grid_rewards_active := ctx.grid_rewards_active
    grid_meter_available := ctx.grid_meter_available
    calendar_hour_avg_kw := tracker.average_kw
    available_capacity_kw := tracker.available_capacity_kw ctx.power_limit_kw
    power_limit_kw := ctx.power_limit_kw
    vehicles := vehicles
    decision_reason := reason
    last_commands := ctx.last_commands
    opportunity_export_revenue := export_revenue
    opportunity_night_cost := night_cost }

/-- Step 3 (user intent) of run_decision_pipeline: partition out the forced
vehicles, allocate them against the full available capacity, write the
allocations back, and deduct (alloc.amps * 230) / 1000.0 per allocation
from the available capacity, exactly as coordinator.py lines 144-154 do.
Returns the updated vehicle list, the updated capacity and the
reason parts. -/
def pipeline_step3 (ctx : PipelineContext) (available_kw : ℚ) :
    List VehicleState × ℚ × List String :=
  let force_vehicles :=
    ctx.vehicles.filter (fun v => ctx.force_charge_vehicles.contains v.vehicle_id)
  if force_vehicles = [] then (ctx.vehicles, available_kw, [])
  else
    let force_alloc := allocate_power_to_vehicles force_vehicles available_kw 20
    let vehicles1 := applyAllocations force_alloc ctx.vehicles
    let available1 :=
      available_kw - (force_alloc.map (fun a => ((a.amps : ℚ) * 230) / 1000)).sum
    (vehicles1, available1, ["force_charge"])

/-- Step 4 (optimization) of run_decision_pipeline, coordinator.py lines
167-182: if charging now is recommended and normal vehicles exist, allocate
them against max(0, remaining capacity); otherwise zero every normal
vehicle.  Returns the updated vehicle list and the updated reason parts. -/
def pipeline_step4 (ctx : PipelineContext) (opp : OpportunityCostResult)
    (vehicles1 : List VehicleState) (available1 : ℚ)
    (reason_parts : List String) : List VehicleState × List String :=
  let normal_vehicles :=
    ctx.vehicles.filter (fun v => ¬ ctx.force_charge_vehicles.contains v.vehicle_id)
  if opp.should_charge_now ∧ normal_vehicles ≠ [] then
    let remaining_kw := max 0 available1
    let normal_alloc := allocate_power_to_vehicles normal_vehicles remaining_kw 20
    (applyAllocations normal_alloc vehicles1, reason_parts ++ [opp.reason])
  else if normal_vehicles ≠ [] then
    (vehicles1.map (fun v =>
        if ctx.force_charge_vehicles.contains v.vehicle_id then v
        else { v with allocated_amps := 0, allocated_phases := 1 }),
      reason_parts ++ [opp.reason])
  else (vehicles1, reason_parts)

/-- run_decision_pipeline from coordinator.py.  Returns the result snapshot
together with the calendar-hour tracker state after the cycle (the Python
code mutates the shared tracker in place). -/
def run_decision_pipeline (ctx : PipelineContext) :
    SmartEVOptimizerData × CalendarHourTracker :=
  let cheapest_night := find_cheapest_night_price ctx.night_prices
  let safety := SafetyCheck.evaluate ctx.grid_rewards_active ctx.battery_power_w
    ctx.grid_meter_available (any_obc_active ctx)
  if ¬ safety.allow_charging then
    let vehicles := ctx.vehicles.map (fun v =>
      { v with allocated_amps := 0, allocated_phases := 1 })
    (build_result ctx ctx.calendar_hour_tracker vehicles cheapest_night
      safety.reason 0 0,
     ctx.calendar_hour_tracker)
  else
    let tracker := ctx.calendar_hour_tracker.add_sample ctx.utc_now_sec ctx.grid_power_w
    let available_kw0 :=
      if safety.safe_mode then ((safety.max_amps.getD 0 * 230 : ℤ) : ℚ) / 1000
      else tracker.available_capacity_kw ctx.power_limit_kw
    let step3 := pipeline_step3 ctx available_kw0
    let opp := evaluate_opportunity_cost ctx.current_export_price cheapest_night
      ctx.grid_fee_import ctx.grid_fee_export ctx.export_compensation ctx.vat_rate
    let step4 := pipeline_step4 ctx opp step3.1 step3.2.1 step3.2.2
    let reason :=
      if step4.2 ≠ [] then String.intercalate " | " step4.2 else opp.reason
    (build_result ctx tracker step4.1 cheapest_night reason
      opp.export_revenue opp.night_charge_cost,
     tracker)

/-- The per-vehicle view of the write-back loops: fold every allocation over
one vehicle, taking the last matching allocation. -/
def writeAllocs (v : VehicleState) (allocs : List PowerAllocation) : VehicleState :=
  allocs.foldl (fun v a =>
    if v.vehicle_id = a.vehicle_id then
      { v with allocated_amps := a.amps, allocated_phases := a.phases }
    else v) v

theorem truncQ_nonpos {q : ℚ} (hq : q < 0) : truncQ q ≤ 0 := by
  have h : (0 : ℤ) ≤ ⌊-q⌋ := Int.floor_nonneg.mpr (by linarith)
  simp only [truncQ, if_pos hq]
  omega

theorem truncQ_lt {q : ℚ} {n : ℤ} (hn : 0 < n) (h : q < (n : ℚ)) : truncQ q < n := by
  by_cases hq : q < 0
  · exact lt_of_le_of_lt (truncQ_nonpos hq) hn
  · simp only [truncQ, if_neg hq]
    exact Int.floor_lt.mpr h

theorem truncQ_cast_le {q : ℚ} (h : 0 < truncQ q) : (truncQ q : ℚ) ≤ q := by
  by_cases hq : q < 0
  · exact absurd h (not_lt.mpr (truncQ_nonpos hq))
  · simp only [truncQ, if_neg hq]
    exact Int.floor_le q

theorem total_allocated_kw_nil : total_allocated_kw [] = 0 := rfl

theorem total_allocated_kw_cons (a : PowerAllocation) (l : List PowerAllocation) :
    total_allocated_kw (a :: l) =
      ((a.amps * 230 * 3 : ℤ) : ℚ) / 1000 + total_allocated_kw l := by
  simp [total_allocated_kw]

theorem allocGo_total (fuse : ℤ) (l : List VehicleState) (r : ℚ) :
    total_allocated_kw (allocGo fuse r l).1 + (allocGo fuse r l).2 = r := by
  induction l generalizing r with
  | nil => simp [allocGo, total_allocated_kw]
  | cons v rest ih =>
    simp only [allocGo]
    split_ifs with h1 h2
    · simp only [total_allocated_kw_cons]
      push_cast
      have := ih r
      linarith
    · simp only [total_allocated_kw_cons]
      push_cast
      have := ih r
      linarith
    · simp only [total_allocated_kw_cons]
      have := ih (r - ((min (truncQ (r * 1000 / ((VOLTAGE * NUM_PHASES : ℤ) : ℚ)))
        fuse * VOLTAGE * NUM_PHASES : ℤ) : ℚ) / 1000)
      simp only [VOLTAGE, NUM_PHASES] at *
      push_cast at *
      linarith

theorem allocGo_remaining_nonneg (fuse : ℤ) (l : List VehicleState) (r : ℚ)
    (hr : 0 ≤ r) : 0 ≤ (allocGo fuse r l).2 := by
  induction l generalizing r with
  | nil => simpa [allocGo] using hr
  | cons v rest ih =>
    simp only [allocGo]
    split_ifs with h1 h2
    · exact ih r hr
    · exact ih r hr
    · set arg : ℚ := r * 1000 / ((VOLTAGE * NUM_PHASES : ℤ) : ℚ) with harg
      have h6 : 6 ≤ truncQ arg := by
        simpa [MIN_CHARGING_AMPS] using not_lt.mp h2
      have hpos : 0 < truncQ arg := by omega
      have hcast : (truncQ arg : ℚ) ≤ arg := truncQ_cast_le hpos
      have hmin : (min (truncQ arg) fuse : ℚ) ≤ (truncQ arg : ℚ) := by
        exact_mod_cast min_le_left _ _
      have hargval : arg = r * 1000 / 690 := by
        rw [harg]
        norm_num [VOLTAGE, NUM_PHASES]
      have hle : ((min (truncQ arg) fuse * VOLTAGE * NUM_PHASES : ℤ) : ℚ) / 1000 ≤ r := by
        simp only [VOLTAGE, NUM_PHASES]
        push_cast
        rw [hargval] at hcast
        nlinarith [hmin.trans hcast]
      exact ih _ (by linarith)

theorem allocGo_append (fuse : ℤ) (l₁ l₂ : List VehicleState) (r : ℚ) :
    allocGo fuse r (l₁ ++ l₂) =
      ((allocGo fuse r l₁).1 ++ (allocGo fuse (allocGo fuse r l₁).2 l₂).1,
       (allocGo fuse (allocGo fuse r l₁).2 l₂).2) := by
  induction l₁ generalizing r with
  | nil => simp [allocGo]
  | cons v rest ih =>
    simp only [List.cons_append, allocGo]
    split_ifs with h1 h2
    · simp [ih r]
    · simp [ih r]
    · simp [ih]

theorem allocGo_ids (fuse : ℤ) (l : List VehicleState) (r : ℚ) :
    (allocGo fuse r l).1.map (fun a => a.vehicle_id) =
      l.map (fun v => v.vehicle_id) := by
  induction l generalizing r with
  | nil => simp [allocGo]
  | cons v rest ih =>
    simp only [allocGo]
    split_ifs with h1 h2 <;> simp [ih]

theorem allocGo_amps_range (fuse : ℤ) (hfuse : 6 ≤ fuse) (l : List VehicleState)
    (r : ℚ) : ∀ a ∈ (allocGo fuse r l).1,
      a.amps = 0 ∨ (6 ≤ a.amps ∧ a.amps ≤ fuse) := by
  induction l generalizing r with
  | nil => simp [allocGo]
  | cons v rest ih =>
    simp only [allocGo]
    split_ifs with h1 h2
    · intro a ha
      rcases List.mem_cons.mp ha with h | h
      · left; simp [h]
      · exact ih r a h
    · intro a ha
      rcases List.mem_cons.mp ha with h | h
      · left; simp [h]
      · exact ih r a h
    · intro a ha
      rcases List.mem_cons.mp ha with h | h
      · right
        have h6 : 6 ≤ truncQ (r * 1000 / ((VOLTAGE * NUM_PHASES : ℤ) : ℚ)) := by
          simpa [MIN_CHARGING_AMPS] using not_lt.mp h2
        constructor
        · simp only [h]
          exact le_min h6 hfuse
        · simp only [h]
          exact min_le_right _ _
      · exact ih _ a h

theorem allocGo_small (fuse : ℤ) (l : List VehicleState) (r : ℚ)
    (hr : r < 207 / 50) :
    (∀ a ∈ (allocGo fuse r l).1, a.amps = 0) ∧ (allocGo fuse r l).2 = r := by
  induction l with
  | nil => simp [allocGo]
  | cons v rest ih =>
    simp only [allocGo]
    have hsix : truncQ (r * 1000 / ((VOLTAGE * NUM_PHASES : ℤ) : ℚ)) < MIN_CHARGING_AMPS := by
      have harg : r * 1000 / ((VOLTAGE * NUM_PHASES : ℤ) : ℚ) < (6 : ℚ) := by
        simp only [VOLTAGE, NUM_PHASES]
        push_cast
        rw [div_lt_iff₀ (by norm_num)]
        linarith
      simpa [MIN_CHARGING_AMPS] using truncQ_lt (by norm_num) harg
    split_ifs with h1
    · refine ⟨?_, ih.2⟩
      intro a ha
      rcases List.mem_cons.mp ha with h | h
      · simp [h]
      · exact ih.1 a h
    · refine ⟨?_, ih.2⟩
      intro a ha
      rcases List.mem_cons.mp ha with h | h
      · simp [h]
      · exact ih.1 a h

theorem mem_insertByPriority (a v : VehicleState) (l : List VehicleState) :
    a ∈ insertByPriority v l ↔ a = v ∨ a ∈ l := by
  induction l with
  | nil => simp [insertByPriority]
  | cons w ws ih =>
    simp only [insertByPriority]
    split_ifs with h
    · simp only [List.mem_cons, ih]
      tauto
    · simp only [List.mem_cons]

theorem insertByPriority_pairwise (v : VehicleState) (l : List VehicleState)
    (h : l.Pairwise (fun a b => a.priority ≤ b.priority)) :
    (insertByPriority v l).Pairwise (fun a b => a.priority ≤ b.priority) := by
  induction l with
  | nil => simp [insertByPriority]
  | cons w ws ih =>
    rcases List.pairwise_cons.mp h with ⟨hw, hws⟩
    simp only [insertByPriority]
    split_ifs with hle
    · refine List.pairwise_cons.mpr ⟨?_, ih hws⟩
      intro x hx
      rcases (mem_insertByPriority x v ws).mp hx with h1 | h1
      · simpa [h1] using hle
      · exact hw x h1
    · refine List.pairwise_cons.mpr ⟨?_, h⟩
      intro x hx
      rcases List.mem_cons.mp hx with h1 | h1
      · simp only [h1]
        omega
      · have := hw x h1
        omega

theorem foldl_insert_pairwise (l acc : List VehicleState)
    (h : acc.Pairwise (fun a b => a.priority ≤ b.priority)) :
    (l.foldl (fun acc v => insertByPriority v acc) acc).Pairwise
      (fun a b => a.priority ≤ b.priority) := by
  induction l generalizing acc with
  | nil => simpa using h
  | cons v rest ih =>
    exact ih (insertByPriority v acc) (insertByPriority_pairwise v acc h)

theorem sortByPriority_pairwise (l : List VehicleState) :
    (sortByPriority l).Pairwise (fun a b => a.priority ≤ b.priority) :=
  foldl_insert_pairwise l [] (by simp)

theorem mem_foldl_insert (a : VehicleState) (l acc : List VehicleState) :
    a ∈ l.foldl (fun acc v => insertByPriority v acc) acc ↔ a ∈ acc ∨ a ∈ l := by
  induction l generalizing acc with
  | nil => simp
  | cons v rest ih =>
    simp only [List.foldl_cons, ih, mem_insertByPriority, List.mem_cons]
    tauto

theorem mem_sortByPriority (a : VehicleState) (l : List VehicleState) :
    a ∈ sortByPriority l ↔ a ∈ l := by
  simp [sortByPriority, mem_foldl_insert]

theorem writeAllocs_cons (v : VehicleState) (a : PowerAllocation)
    (rest : List PowerAllocation) :
    writeAllocs v (a :: rest) =
      writeAllocs (if v.vehicle_id = a.vehicle_id then
        { v with allocated_amps := a.amps, allocated_phases := a.phases }
      else v) rest := rfl

theorem applyAllocations_eq_map (allocs : List PowerAllocation)
    (vs : List VehicleState) :
    applyAllocations allocs vs = vs.map (fun v => writeAllocs v allocs) := by
  induction allocs generalizing vs with
  | nil => simp [applyAllocations, writeAllocs]
  | cons a rest ih =>
    have h1 : applyAllocations (a :: rest) vs =
        applyAllocations rest (applyAllocationStep vs a) := rfl
    rw [h1, ih]
    simp only [applyAllocationStep, List.map_map]
    rfl

theorem writeAllocs_vehicle_id (v : VehicleState) (allocs : List PowerAllocation) :
    (writeAllocs v allocs).vehicle_id = v.vehicle_id := by
  induction allocs generalizing v with
  | nil => rfl
  | cons a rest ih =>
    rw [writeAllocs_cons]
    split_ifs with h
    · exact (ih _).trans rfl
    · exact ih v

theorem writeAllocs_zero (v : VehicleState) (allocs : List PowerAllocation)
    (h0 : ∀ a ∈ allocs, a.amps = 0) :
    (writeAllocs v allocs).allocated_amps = 0 ∨
      (writeAllocs v allocs = v ∧ ∀ a ∈ allocs, a.vehicle_id ≠ v.vehicle_id) := by
  induction allocs generalizing v with
  | nil => exact Or.inr ⟨rfl, by simp⟩
  | cons a rest ih =>
    rw [writeAllocs_cons]
    split_ifs with h
    · have hz : a.amps = 0 := h0 a (by simp)
      rcases ih { v with allocated_amps := a.amps, allocated_phases := a.phases }
          (fun b hb => h0 b (List.mem_cons_of_mem _ hb)) with h1 | ⟨h1, _⟩
      · exact Or.inl h1
      · left
        rw [h1]
        exact hz
    · rcases ih v (fun b hb => h0 b (List.mem_cons_of_mem _ hb)) with h1 | ⟨h1, h2⟩
      · exact Or.inl h1
      · refine Or.inr ⟨h1, ?_⟩
        intro b hb
        rcases List.mem_cons.mp hb with hb1 | hb1
        · rw [hb1]
          exact fun he => h he.symm
        · exact h2 b hb1


theorem writeAllocs_matched (v : VehicleState) (allocs : List PowerAllocation)
    (h0 : ∀ a ∈ allocs, a.amps = 0)
    (hmatch : ∃ a ∈ allocs, a.vehicle_id = v.vehicle_id) :
    (writeAllocs v allocs).allocated_amps = 0 := by
  rcases writeAllocs_zero v allocs h0 with h | ⟨_, hno⟩
  · exact h
  · rcases hmatch with ⟨a, ha, he⟩
    exact absurd he (hno a ha)

theorem safety_blocked_iff (gra : Bool) (bp : ℚ) (gma obc : Bool) :
    (SafetyCheck.evaluate gra bp gma obc).allow_charging = false ↔
      ((gra = true ∧ bp < 0) ∨ obc = true) := by
  simp only [SafetyCheck.evaluate]
  split_ifs with h1 h2 h3 <;> simp_all

theorem foldTrace_agree (trace : List (ℕ × ℚ)) (tt : TimedTracker)
    (ct : CalendarHourTracker) (hs : tt.samples.map Prod.snd = ct.samples)
    (hh : tt.current_hour = ct.current_hour) :
    (trace.foldl (fun tr tw => tr.add_sample tw.1 tw.2) tt).samples.map Prod.snd =
      (trace.foldl (fun tr tw => tr.add_sample tw.1 tw.2) ct).samples ∧
    (trace.foldl (fun tr tw => tr.add_sample tw.1 tw.2) tt).current_hour =
      (trace.foldl (fun tr tw => tr.add_sample tw.1 tw.2) ct).current_hour := by
  induction trace generalizing tt ct with
  | nil => exact ⟨hs, hh⟩
  | cons tw rest ih =>
    simp only [List.foldl_cons]
    apply ih
    · rcases hct : ct.current_hour with _ | ch
      · rw [hct] at hh
        simp [TimedTracker.add_sample, CalendarHourTracker.add_sample, hh, hct, hs]
      · rw [hct] at hh
        simp only [TimedTracker.add_sample, CalendarHourTracker.add_sample, hh, hct]
        simp only [List.map_append, hs]
        split_ifs <;> simp [hs]
    · rcases hct : ct.current_hour with _ | ch <;>
        rw [hct] at hh <;>
        simp [TimedTracker.add_sample, CalendarHourTracker.add_sample, hh, hct]

theorem foldTimed_hours (trace : List (ℕ × ℚ)) (tt : TimedTracker)
    (hinv : ∀ x ∈ tt.samples, some (hourOfDay x.1) = tt.current_hour) :
    ∀ x ∈ (trace.foldl (fun tr tw => tr.add_sample tw.1 tw.2) tt).samples,
      some (hourOfDay x.1) =
        (trace.foldl (fun tr tw => tr.add_sample tw.1 tw.2) tt).current_hour := by
  induction trace generalizing tt with
  | nil => exact hinv
  | cons tw rest ih =>
    simp only [List.foldl_cons]
    apply ih
    intro x hx
    simp only [TimedTracker.add_sample] at hx ⊢
    rcases List.mem_append.mp hx with hx1 | hx1
    · rcases hct : tt.current_hour with _ | ch
      · rw [hct] at hx1
        simp only at hx1
        have := hinv x hx1
        rw [hct] at this
        exact absurd this (by simp)
      · rw [hct] at hx1
        simp only at hx1
        split_ifs at hx1 with hne
        · exact absurd hx1 (List.not_mem_nil x)
        · have := hinv x hx1
          rw [hct] at this
          have hch : hourOfDay x.1 = ch := by
            simpa using this
          simp [hch, not_ne_iff.mp hne]
    · have hx2 : x = (tw.1, tw.2) := by simpa using hx1
      simp [hx2]

theorem foldTracker_const_hour (trace : List (ℕ × ℚ)) (ct : CalendarHourTracker)
    (H : ℕ) (hct : ct.current_hour = some H)
    (hall : ∀ x ∈ trace, hourOfDay x.1 = H) :
    trace.foldl (fun tr tw => tr.add_sample tw.1 tw.2) ct =
      ⟨ct.samples ++ trace.map Prod.snd, some H⟩ := by
  induction trace generalizing ct with
  | nil =>
    cases ct
    simp_all
  | cons tw rest ih =>
    simp only [List.foldl_cons]
    have hhd : hourOfDay tw.1 = H := hall (tw.1, tw.2) (by simp)
    have hstep : ct.add_sample tw.1 tw.2 = ⟨ct.samples ++ [tw.2], some H⟩ := by
      simp [CalendarHourTracker.add_sample, hct, hhd]
    rw [hstep, ih ⟨ct.samples ++ [tw.2], some H⟩ rfl
      (fun x hx => hall x (List.mem_cons_of_mem _ hx))]
    simp

/-- C7: the safety evaluator applies its rules in strict priority order with
the first matching rule winning: grid-rewards-active with exporting battery
blocks with reason grid_rewards_active_battery_exporting; otherwise an
active OBC cooldown blocks with reason obc_cooldown_active; otherwise an
unavailable grid meter allows charging in safe mode at 6 A with reason
grid_meter_unavailable_safe_mode; otherwise charging is allowed with reason
all_clear.  Rule 1 masks rule 2, and both mask rule 3. -/
theorem c7_safety_rule_priority (gra : Bool) (bp : ℚ) (gma obc : Bool) :
    ((gra = true ∧ bp < 0) →
      SafetyCheck.evaluate gra bp gma obc =
        ⟨false, "grid_rewards_active_battery_exporting", false, none⟩) ∧
    (¬(gra = true ∧ bp < 0) → obc = true →
      SafetyCheck.evaluate gra bp gma obc =
        ⟨false, "obc_cooldown_active", false, none⟩) ∧
    (¬(gra = true ∧ bp < 0) → obc = false → gma = false →
      SafetyCheck.evaluate gra bp gma obc =
        ⟨true, "grid_meter_unavailable_safe_mode", true, some 6⟩) ∧
    (¬(gra = true ∧ bp < 0) → obc = false → gma = true →
      SafetyCheck.evaluate gra bp gma obc = ⟨true, "all_clear", false, none⟩) := by
  refine ⟨fun h => ?_, fun h1 h2 => ?_, fun h1 h2 h3 => ?_, fun h1 h2 h3 => ?_⟩
  · simp [SafetyCheck.evaluate, h.1, h.2]
  · simp [SafetyCheck.evaluate, h1, h2]
  · simp [SafetyCheck.evaluate, h1, h2, h3, SAFE_MODE_MAX_AMPS]
  · simp [SafetyCheck.evaluate, h1, h2, h3]

/-- Witness for C7 at concrete inputs; the first case has both rule 1 and
rule 2 applicable and rule 1 wins. -/
theorem c7_witness :
    SafetyCheck.evaluate true (-1) true true =
      ⟨false, "grid_rewards_active_battery_exporting", false, none⟩ ∧
    SafetyCheck.evaluate true 0 false true =
      ⟨false, "obc_cooldown_active", false, none⟩ ∧
    SafetyCheck.evaluate false 0 false false =
      ⟨true, "grid_meter_unavailable_safe_mode", true, some 6⟩ ∧
    SafetyCheck.evaluate false 0 true false = ⟨true, "all_clear", false, none⟩ :=
  ⟨(c7_safety_rule_priority true (-1) true true).1 ⟨rfl, by norm_num⟩,
   (c7_safety_rule_priority true 0 false true).2.1 (by norm_num) rfl,
   (c7_safety_rule_priority false 0 false false).2.2.1 (by simp) rfl rfl,
   (c7_safety_rule_priority false 0 true false).2.2.2 (by simp) rfl rfl⟩

/-- C6: evaluate_opportunity_cost computes export_revenue and, when a
cheapest night price exists, night_charge_cost by the stated formulas; with
no night price it charges now with reason no_night_prices_available;
otherwise it defers (should_charge_now false, reason export_more_profitable)
exactly when export_revenue > night_charge_cost, and charges now with
reason charging_now_cheaper otherwise, ties resolving to charging now. -/
theorem c6_opportunity_cost_decision (cep : ℚ) (night : Option ℚ)
    (gfi gfe ec vat : ℚ) :
    (evaluate_opportunity_cost cep night gfi gfe ec vat).export_revenue =
      cep + ec - gfe ∧
    (night = none →
      evaluate_opportunity_cost cep night gfi gfe ec vat =
        ⟨true, cep + ec - gfe, 0, "no_night_prices_available"⟩) ∧
    (∀ p : ℚ, night = some p →
      (evaluate_opportunity_cost cep night gfi gfe ec vat).night_charge_cost =
        (p + gfi) * (1 + vat) ∧
      (cep + ec - gfe > (p + gfi) * (1 + vat) →
        evaluate_opportunity_cost cep night gfi gfe ec vat =
          ⟨false, cep + ec - gfe, (p + gfi) * (1 + vat), "export_more_profitable"⟩) ∧
      (cep + ec - gfe ≤ (p + gfi) * (1 + vat) →
        evaluate_opportunity_cost cep night gfi gfe ec vat =
          ⟨true, cep + ec - gfe, (p + gfi) * (1 + vat), "charging_now_cheaper"⟩)) := by
  refine ⟨?_, fun h => ?_, fun p hp => ?_⟩
  · cases night with
    | none => rfl
    | some p =>
      simp only [evaluate_opportunity_cost]
      split_ifs <;> rfl
  · subst h
    rfl
  · subst hp
    refine ⟨?_, fun hgt => ?_, fun hle => ?_⟩
    · simp only [evaluate_opportunity_cost]
      split_ifs <;> rfl
    · simp [evaluate_opportunity_cost, hgt]
    · simp [evaluate_opportunity_cost, not_lt.mpr hle]

/-- Witness for C6 at concrete prices, including the tie case resolving to
charging now. -/
theorem c6_witness :
    evaluate_opportunity_cost 2 (some 1) 0 0 0 0 =
      ⟨false, 2 + 0 - 0, (1 + 0) * (1 + 0), "export_more_profitable"⟩ ∧
    evaluate_opportunity_cost 1 (some 1) 0 0 0 0 =
      ⟨true, 1 + 0 - 0, (1 + 0) * (1 + 0), "charging_now_cheaper"⟩ ∧
    evaluate_opportunity_cost 5 none 0 0 0 0 =
      ⟨true, 5 + 0 - 0, 0, "no_night_prices_available"⟩ :=
  ⟨((c6_opportunity_cost_decision 2 (some 1) 0 0 0 0).2.2 1 rfl).2.1 (by norm_num),
   ((c6_opportunity_cost_decision 1 (some 1) 0 0 0 0).2.2 1 rfl).2.2 (by norm_num),
   (c6_opportunity_cost_decision 5 none 0 0 0 0).2.1 rfl⟩

/-- C5: the allocator processes vehicles in ascending priority order (the
processing list is priority-sorted), never revisits an earlier vehicle's
allocation to benefit a later one (the allocations of a prefix of the
processing list are unchanged by appending further vehicles), and the total
allocated three-phase power never exceeds the supplied available
capacity. -/
theorem c5_allocator_greedy_priority_capped (vehicles : List VehicleState)
    (available_capacity_kw : ℚ) (fuse_size : ℤ)
    (hcap : 0 ≤ available_capacity_kw) :
    allocate_power_to_vehicles vehicles available_capacity_kw fuse_size =
      (allocGo fuse_size available_capacity_kw (sortByPriority vehicles)).1 ∧
    (sortByPriority vehicles).Pairwise (fun a b => a.priority ≤ b.priority) ∧
    (∀ (l₁ l₂ : List VehicleState) (r : ℚ),
      (allocGo fuse_size r (l₁ ++ l₂)).1 =
        (allocGo fuse_size r l₁).1 ++
          (allocGo fuse_size (allocGo fuse_size r l₁).2 l₂).1) ∧
    total_allocated_kw
        (allocate_power_to_vehicles vehicles available_capacity_kw fuse_size) ≤
      available_capacity_kw := by
  refine ⟨rfl, sortByPriority_pairwise vehicles, fun l₁ l₂ r => ?_, ?_⟩
  · rw [allocGo_append]
  · have h1 := allocGo_total fuse_size (sortByPriority vehicles) available_capacity_kw
    have h2 := allocGo_remaining_nonneg fuse_size (sortByPriority vehicles)
      available_capacity_kw hcap
    unfold allocate_power_to_vehicles
    linarith

/-- Concrete connected vehicles below target state of charge, used to apply
the C5 theorem at an explicit input. -/
def c5_vehicle_hi : VehicleState :=
  { vehicle_id := "car_hi", name := "Car Hi", priority := 1, target_soc := 80,
    current_soc := some 50, departure_time := none, is_connected := true,
    soc_source_type := "api", soc_entity_id := some "sensor.car_hi_soc",
    charger_entity_id := "sensor.car_hi_charger", allocated_amps := 0,
    allocated_phases := 1 }

def c5_vehicle_lo : VehicleState :=
  { vehicle_id := "car_lo", name := "Car Lo", priority := 2, target_soc := 80,
    current_soc := some 50, departure_time := none, is_connected := true,
    soc_source_type := "api", soc_entity_id := some "sensor.car_lo_soc",
    charger_entity_id := "sensor.car_lo_charger", allocated_amps := 0,
    allocated_phases := 1 }

/-- Witness for C5: the capacity bound instantiated at a concrete two-vehicle
allocation. -/
theorem c5_witness :
    total_allocated_kw (allocate_power_to_vehicles [c5_vehicle_lo, c5_vehicle_hi] 5 20) ≤ 5 :=
  (c5_allocator_greedy_priority_capped [c5_vehicle_lo, c5_vehicle_hi] 5 20
    (by norm_num)).2.2.2

/-- C9 (amended): for a fuse size of at least 6 A, every allocation has amps
either 0 or between 6 and the fuse size inclusive. -/
theorem c9_amps_zero_or_in_range (vehicles : List VehicleState)
    (available_capacity_kw : ℚ) (fuse_size : ℤ) (hfuse : 6 ≤ fuse_size) :
    ∀ a ∈ allocate_power_to_vehicles vehicles available_capacity_kw fuse_size,
      a.amps = 0 ∨ (6 ≤ a.amps ∧ a.amps ≤ fuse_size) := by
  intro a ha
  exact allocGo_amps_range fuse_size hfuse (sortByPriority vehicles)
    available_capacity_kw a ha

/-- Concrete connected vehicle below target state of charge, for the C9
counterexample. -/
def c9_vehicle : VehicleState :=
  { vehicle_id := "car_x", name := "Car X", priority := 1, target_soc := 80,
    current_soc := some 50, departure_time := none, is_connected := true,
    soc_source_type := "api", soc_entity_id := some "sensor.car_x_soc",
    charger_entity_id := "sensor.car_x_charger", allocated_amps := 0,
    allocated_phases := 1 }

/-- Counterexample to C9 as stated: with fuse_size = 4 and ample capacity
the allocator assigns a positive current of 4 A, which is neither 0 nor at
least the 6 A minimum. -/
theorem c9_counterexample :
    (allocate_power_to_vehicles [c9_vehicle] 10 4).map (fun a => a.amps) = [4] ∧
    ¬((4 : ℤ) = 0 ∨ (6 ≤ (4 : ℤ) ∧ (4 : ℤ) ≤ 4)) := by
  constructor
  · repeat
      first
      | simp [allocate_power_to_vehicles, sortByPriority, insertByPriority, allocGo,
          c9_vehicle, VehicleState.needs_charge, VOLTAGE, NUM_PHASES, MIN_CHARGING_AMPS]
      | norm_num [truncQ]
  · omega

/-- Concrete vehicle for the C9 witness. -/
def c9_witness_vehicle : VehicleState :=
  { vehicle_id := "car_y", name := "Car Y", priority := 1, target_soc := 80,
    current_soc := some 50, departure_time := none, is_connected := true,
    soc_source_type := "api", soc_entity_id := some "sensor.car_y_soc",
    charger_entity_id := "sensor.car_y_charger", allocated_amps := 0,
    allocated_phases := 1 }

/-- Witness for the amended C9: the range property applied to the concrete
14 A allocation produced from 10 kW with the default 20 A fuse. -/
theorem c9_witness :
    (⟨"car_y", 14, 3⟩ : PowerAllocation).amps = 0 ∨
      (6 ≤ (⟨"car_y", 14, 3⟩ : PowerAllocation).amps ∧
        (⟨"car_y", 14, 3⟩ : PowerAllocation).amps ≤ 20) := by
  have halloc : allocate_power_to_vehicles [c9_witness_vehicle] 10 20 =
      [⟨"car_y", 14, 3⟩] := by
    repeat
      first
      | simp [allocate_power_to_vehicles, sortByPriority, insertByPriority, allocGo,
          c9_witness_vehicle, VehicleState.needs_charge, VOLTAGE, NUM_PHASES,
          MIN_CHARGING_AMPS]
      | norm_num [truncQ]
  exact c9_amps_zero_or_in_range [c9_witness_vehicle] 10 20 (by norm_num)
    ⟨"car_y", 14, 3⟩ (by rw [halloc]; simp)

/-- C2: whenever the safety evaluator blocks charging (grid rewards active
with the battery exporting, or any OBC cooldown active), every vehicle in
the pipeline result has 0 amps and 1 phase regardless of priority or
force-charge membership, the decision reason is exactly the safety reason
code, and the calendar-hour tracker is left untouched (stages 2-4 do not
run). -/
theorem c2_safety_block_zeroes_all (ctx : PipelineContext)
    (hblock : (ctx.grid_rewards_active = true ∧ ctx.battery_power_w < 0) ∨
      any_obc_active ctx = true) :
    (∀ v ∈ (run_decision_pipeline ctx).1.vehicles,
        v.allocated_amps = 0 ∧ v.allocated_phases = 1) ∧
    (run_decision_pipeline ctx).1.decision_reason =
      (SafetyCheck.evaluate ctx.grid_rewards_active ctx.battery_power_w
        ctx.grid_meter_available (any_obc_active ctx)).reason ∧
    (run_decision_pipeline ctx).2 = ctx.calendar_hour_tracker := by
  have hfalse : (SafetyCheck.evaluate ctx.grid_rewards_active ctx.battery_power_w
      ctx.grid_meter_available (any_obc_active ctx)).allow_charging = false :=
    (safety_blocked_iff _ _ _ _).mpr hblock
  have hrun : run_decision_pipeline ctx =
      (build_result ctx ctx.calendar_hour_tracker
        (ctx.vehicles.map (fun v =>
          { v with allocated_amps := 0, allocated_phases := 1 }))
        (find_cheapest_night_price ctx.night_prices)
        (SafetyCheck.evaluate ctx.grid_rewards_active ctx.battery_power_w
          ctx.grid_meter_available (any_obc_active ctx)).reason 0 0,
       ctx.calendar_hour_tracker) := by
    simp only [run_decision_pipeline, hfalse]
    simp
  rw [hrun]
  refine ⟨?_, by simp [build_result], rfl⟩
  intro v hv
  simp only [build_result] at hv
  rcases List.mem_map.mp hv with ⟨w, _, rfl⟩
  exact ⟨rfl, rfl⟩

/-- Concrete blocked pipeline context for the C2 witness: grid rewards are
active, the battery exports 500 W, and one connected vehicle is in the
force-charge set. -/
def c2_ctx : PipelineContext :=
  { grid_power_w := 5000, solar_power_w := 3000, battery_power_w := -500,
    battery_soc := 80, grid_rewards_active := true, grid_meter_available := true,
    current_export_price := 3/2, current_import_price := 1,
    night_prices := [(93600, 3/10)], grid_fee_import := 2/5,
    grid_fee_export := 1/20, export_compensation := 1/10, vat_rate := 1/4,
    power_limit_kw := 11,
    vehicles :=
      [{ vehicle_id := "car_1",
         name := "Test Car",
         priority := 1,
         target_soc := 80,
         current_soc := some 50,
         departure_time := none,
         is_connected := true,
         soc_source_type := "api",
         soc_entity_id := some "sensor.car_soc",
         charger_entity_id := "sensor.easee_charger",
         allocated_amps := 0,
         allocated_phases := 1 }],
    obc_tracker := ⟨[]⟩, calendar_hour_tracker := ⟨[], none⟩,
    force_charge_vehicles := ["car_1"], last_commands := [],
    utc_now_sec := 36900, mono_now := 1000 }

/-- Witness for C2 at the concrete blocked context. -/
theorem c2_witness :
    (run_decision_pipeline c2_ctx).1.decision_reason =
      (SafetyCheck.evaluate c2_ctx.grid_rewards_active c2_ctx.battery_power_w
        c2_ctx.grid_meter_available (any_obc_active c2_ctx)).reason ∧
    (run_decision_pipeline c2_ctx).2 = c2_ctx.calendar_hour_tracker :=
  ⟨(c2_safety_block_zeroes_all c2_ctx
      (Or.inl ⟨rfl, by norm_num [c2_ctx]⟩)).2.1,
   (c2_safety_block_zeroes_all c2_ctx
      (Or.inl ⟨rfl, by norm_num [c2_ctx]⟩)).2.2⟩

/-- C10: the decision pipeline is deterministic.  In this embedding every
input the Python code reads — the context snapshot, both tracker states and
the two clock readings — is a field of PipelineContext, and
run_decision_pipeline is a pure function of it, so identical inputs give
identical result snapshots and tracker states. -/
theorem c10_pipeline_deterministic (ctx1 ctx2 : PipelineContext)
    (h : ctx1 = ctx2) :
    run_decision_pipeline ctx1 = run_decision_pipeline ctx2 := by
  rw [h]

/-- Concrete pipeline context for the C10 witness. -/
def c10_ctx : PipelineContext :=
  { grid_power_w := 5000, solar_power_w := 3000, battery_power_w := 0,
    battery_soc := 80, grid_rewards_active := false, grid_meter_available := true,
    current_export_price := 1/10, current_import_price := 1/2,
    night_prices := [(93600, 4/5)], grid_fee_import := 2/5,
    grid_fee_export := 1/20, export_compensation := 1/10, vat_rate := 1/4,
    power_limit_kw := 11,
    vehicles :=
      [{ vehicle_id := "car_1",
         name := "Test Car",
         priority := 1,
         target_soc := 80,
         current_soc := some 50,
         departure_time := none,
         is_connected := true,
         soc_source_type := "api",
         soc_entity_id := some "sensor.car_soc",
         charger_entity_id := "sensor.easee_charger",
         allocated_amps := 0,
         allocated_phases := 1 }],
    obc_tracker := ⟨[]⟩, calendar_hour_tracker := ⟨[5000], some 10⟩,
    force_charge_vehicles := [], last_commands := [],
    utc_now_sec := 36900, mono_now := 1000 }

/-- Witness for C10: two runs from the identical concrete context coincide. -/
theorem c10_witness :
    run_decision_pipeline c10_ctx = run_decision_pipeline c10_ctx :=
  c10_pipeline_deterministic c10_ctx c10_ctx rfl

/-- Counterexample to C3 as stated: two samples taken at 10:00 UTC on two
consecutive days belong to different wall-clock hours (absolute hours 10 and
34 since the epoch) yet both are retained, because the tracker compares only
the hour-of-day, which is 10 for both. -/
theorem c3_counterexample :
    retainedSamples [(36000, 100), (122400, 200)] = [(36000, 100), (122400, 200)] ∧
    36000 / 3600 ≠ 122400 / 3600 := by
  constructor
  · simp [retainedSamples, runTimedTrace, TimedTracker.add_sample, hourOfDay]
  · decide

/-- C3 (amended): the ghost tracker agrees with CalendarHourTracker sample
for sample; all retained samples share one hour-of-day (0-23), so samples
from two different hours-of-day never coexist; and appending a sample whose
hour-of-day differs from the tracked hour discards all prior samples.
Samples from the same hour-of-day on different days may coexist. -/
theorem c3_same_hour_of_day_invariant :
    (∀ trace : List (ℕ × ℚ),
      (runTimedTrace trace).samples.map Prod.snd = (runTrackerTrace trace).samples ∧
      (runTimedTrace trace).current_hour = (runTrackerTrace trace).current_hour) ∧
    (∀ trace : List (ℕ × ℚ),
      (retainedSamples trace).Pairwise (fun a b => hourOfDay a.1 = hourOfDay b.1)) ∧
    (∀ (trace : List (ℕ × ℚ)) (t : ℕ) (w : ℚ),
      (runTrackerTrace trace).current_hour ≠ some (hourOfDay t) →
      retainedSamples (trace ++ [(t, w)]) = [(t, w)]) := by
  refine ⟨fun trace => ?_, fun trace => ?_, fun trace t w hne => ?_⟩
  · exact foldTrace_agree trace ⟨[], none⟩ ⟨[], none⟩ rfl rfl
  · have hall := foldTimed_hours trace ⟨[], none⟩ (by simp)
    apply List.pairwise_of_forall_mem_list
    intro a ha b hb
    have h1 := hall a ha
    have h2 := hall b hb
    exact Option.some_injective _ (h1.trans h2.symm)
  · have hagree := foldTrace_agree trace ⟨[], none⟩ ⟨[], none⟩ rfl rfl
    have hh : (runTimedTrace trace).current_hour ≠ some (hourOfDay t) := by
      rw [show (runTimedTrace trace).current_hour =
        (runTrackerTrace trace).current_hour from hagree.2]
      exact hne
    simp only [retainedSamples, runTimedTrace, List.foldl_append, List.foldl_cons,
      List.foldl_nil]
    rcases hct : (runTimedTrace trace).current_hour with _ | ch
    · have hs : (runTimedTrace trace).samples = [] := by
        by_contra hne2
        rcases List.exists_mem_of_ne_nil _ hne2 with ⟨x, hx⟩
        have hx2 : some (hourOfDay x.1) = (runTimedTrace trace).current_hour :=
          foldTimed_hours trace ⟨[], none⟩ (by simp) x hx
        rw [hct] at hx2
        exact absurd hx2 (by simp)
      show ((runTimedTrace trace).add_sample t w).samples = [(t, w)]
      simp [TimedTracker.add_sample, hct, hs]
    · have hch : ch ≠ hourOfDay t := by
        intro he
        exact hh (by rw [hct, he])
      have hcond : hourOfDay t ≠ ch := fun he => hch he.symm
      show ((runTimedTrace trace).add_sample t w).samples = [(t, w)]
      simp [TimedTracker.add_sample, hct, hcond]

/-- Witness for the amended C3: the discard branch applied at a concrete
trace whose next sample moves from hour-of-day 10 to hour-of-day 11. -/
theorem c3_witness :
    retainedSamples [(36000, 100), (39600, 200)] = [(39600, 200)] :=
  c3_same_hour_of_day_invariant.2.2 [(36000, 100)] 39600 200 (by
    simp [runTrackerTrace, CalendarHourTracker.add_sample, hourOfDay])

theorem foldTracker_hour_isSome (tl : List (ℕ × ℚ)) (ct : CalendarHourTracker)
    (h : ct.current_hour.isSome) :
    ((tl.foldl (fun tr tw => tr.add_sample tw.1 tw.2) ct).current_hour).isSome := by
  induction tl generalizing ct with
  | nil => exact h
  | cons tw rest ih =>
    exact ih _ (by simp [CalendarHourTracker.add_sample])

theorem runTrackerTrace_none (trace : List (ℕ × ℚ))
    (h : (runTrackerTrace trace).current_hour = none) :
    (runTrackerTrace trace).samples = [] := by
  cases trace with
  | nil => rfl
  | cons hd tl =>
    exfalso
    have hsome := foldTracker_hour_isSome tl
      ((⟨[], none⟩ : CalendarHourTracker).add_sample hd.1 hd.2)
      (by simp [CalendarHourTracker.add_sample])
    rw [Option.isSome_iff_exists] at hsome
    rcases hsome with ⟨x, hx⟩
    have hx2 : (runTrackerTrace (hd :: tl)).current_hour = some x := hx
    rw [h] at hx2
    exact Option.noConfusion hx2

/-- Counterexample to C8 as stated: after the sample (122400 s, 3000 W),
taken in a different wall-clock hour (absolute hour 34) than the first
sample (absolute hour 10) but at the same hour-of-day, the average is
2 kW — it still reflects the old sample instead of only the new hour's
3 kW. -/
theorem c8_counterexample :
    (runTrackerTrace [(36000, 1000), (122400, 3000)]).average_kw = 2 ∧
    36000 / 3600 ≠ 122400 / 3600 ∧ (2 : ℚ) ≠ 3000 / 1000 := by
  refine ⟨?_, by decide, by norm_num⟩
  repeat
    first
    | simp [runTrackerTrace, CalendarHourTracker.add_sample,
        CalendarHourTracker.average_kw, hourOfDay]
    | norm_num

/-- C8 (amended): for samples all taken within one wall-clock hour,
average_kw is the arithmetic mean of the watt samples divided by 1000; it
is 0 with no samples; and after one sample from an hour with a different
hour-of-day is added, the average reflects only that new sample.  (A
sample from a different wall-clock hour with the same hour-of-day does not
reset the tracker; see the counterexample.) -/
theorem c8_average_kw :
    (∀ (trace : List (ℕ × ℚ)) (W : ℕ), trace ≠ [] →
      (∀ x ∈ trace, x.1 / 3600 = W) →
      (runTrackerTrace trace).average_kw =
        ((trace.map Prod.snd).sum / trace.length) / 1000) ∧
    (runTrackerTrace []).average_kw = 0 ∧
    (∀ (trace : List (ℕ × ℚ)) (t : ℕ) (w : ℚ),
      (runTrackerTrace trace).current_hour ≠ some (hourOfDay t) →
      (runTrackerTrace (trace ++ [(t, w)])).average_kw = w / 1000) := by
  refine ⟨fun trace W hne hall => ?_, rfl, fun trace t w hne => ?_⟩
  · cases trace with
    | nil => exact absurd rfl hne
    | cons hd tl =>
      have hhd : hourOfDay hd.1 = W % 24 := by
        have h1 := hall hd (by simp)
        simp [hourOfDay, h1]
      have hstep : runTrackerTrace (hd :: tl) =
          tl.foldl (fun tr tw => tr.add_sample tw.1 tw.2)
            ⟨[hd.2], some (W % 24)⟩ := by
        simp [runTrackerTrace, CalendarHourTracker.add_sample, hhd]
      rw [hstep, foldTracker_const_hour tl ⟨[hd.2], some (W % 24)⟩ (W % 24) rfl
        (fun x hx => by
          have h2 := hall x (List.mem_cons_of_mem _ hx)
          simp [hourOfDay, h2])]
      simp [CalendarHourTracker.average_kw]
  · have hsplit : runTrackerTrace (trace ++ [(t, w)]) =
        (runTrackerTrace trace).add_sample t w := by
      simp [runTrackerTrace, List.foldl_append]
    rcases hct : (runTrackerTrace trace).current_hour with _ | ch
    · have hs := runTrackerTrace_none trace hct
      rw [hsplit]
      simp [CalendarHourTracker.add_sample, hct, hs, CalendarHourTracker.average_kw]
    · have hch : hourOfDay t ≠ ch := by
        intro he
        exact hne (by rw [hct, he])
      rw [hsplit]
      simp [CalendarHourTracker.add_sample, hct, hch, CalendarHourTracker.average_kw]

/-- Witness for the amended C8 at concrete traces: a two-sample same-hour
average of 2 kW, and a reset on an hour-of-day change leaving 0.5 kW. -/
theorem c8_witness :
    (runTrackerTrace [(36000, 1000), (37800, 3000)]).average_kw =
      ((([(36000, (1000 : ℚ)), (37800, 3000)]).map Prod.snd).sum /
        (([(36000, (1000 : ℚ)), (37800, 3000)]).length)) / 1000 ∧
    (runTrackerTrace ([(36000, (1000 : ℚ))] ++ [(39600, 500)])).average_kw =
      500 / 1000 :=
  ⟨c8_average_kw.1 [(36000, 1000), (37800, 3000)] 10 (by simp)
    (by
      intro x hx
      rcases List.mem_cons.mp hx with h | h
      · simp [h]
      · have h2 : x = (37800, (3000 : ℚ)) := by simpa using h
        simp [h2]),
   c8_average_kw.2.2 [(36000, 1000)] 39600 500
    (by simp [runTrackerTrace, CalendarHourTracker.add_sample, hourOfDay])⟩

theorem alloc_match_exists (fuse : ℤ) (r : ℚ) (l : List VehicleState)
    (v : VehicleState) (hv : v ∈ l) :
    ∃ a ∈ (allocGo fuse r (sortByPriority l)).1, a.vehicle_id = v.vehicle_id := by
  have h1 : v.vehicle_id ∈ (sortByPriority l).map (fun v => v.vehicle_id) :=
    List.mem_map.mpr ⟨v, (mem_sortByPriority v l).mpr hv, rfl⟩
  rw [← allocGo_ids fuse (sortByPriority l) r] at h1
  rcases List.mem_map.mp h1 with ⟨a, ha, he⟩
  exact ⟨a, ha, he⟩

theorem pipeline_step3_small (ctx : PipelineContext) (av : ℚ)
    (hav : av < 207 / 50) :
    (pipeline_step3 ctx av).2.1 = av ∧
    ∀ v' ∈ (pipeline_step3 ctx av).1,
      v'.allocated_amps = 0 ∨
        (v' ∈ ctx.vehicles ∧
          ctx.force_charge_vehicles.contains v'.vehicle_id = false) := by
  simp only [pipeline_step3, allocate_power_to_vehicles]
  split_ifs with hf
  · refine ⟨rfl, fun v' hv' => Or.inr ⟨hv', ?_⟩⟩
    by_contra hc
    have hmem : v' ∈ ctx.vehicles.filter
        (fun v => ctx.force_charge_vehicles.contains v.vehicle_id) :=
      List.mem_filter.mpr ⟨hv', by simpa using hc⟩
    rw [hf] at hmem
    exact absurd hmem (List.not_mem_nil v')
  · have hsmall := allocGo_small 20
      (sortByPriority (ctx.vehicles.filter
        (fun v => ctx.force_charge_vehicles.contains v.vehicle_id))) av hav
    constructor
    · have hzero : ((((allocGo 20 av (sortByPriority (ctx.vehicles.filter
          (fun v => ctx.force_charge_vehicles.contains v.vehicle_id)))).1).map
          (fun a => ((a.amps : ℚ) * 230) / 1000)).sum) = 0 := by
        apply List.sum_eq_zero
        intro x hx
        rcases List.mem_map.mp hx with ⟨a, ha, rfl⟩
        have hz := hsmall.1 a ha
        simp [hz]
      simp only [hzero]
      ring
    · intro v' hv'
      rw [applyAllocations_eq_map] at hv'
      rcases List.mem_map.mp hv' with ⟨v, hv, rfl⟩
      rcases writeAllocs_zero v _ hsmall.1 with h1 | ⟨h1, h2⟩
      · exact Or.inl h1
      · rw [h1]
        by_cases hc : ctx.force_charge_vehicles.contains v.vehicle_id = true
        · exfalso
          have hvf : v ∈ ctx.vehicles.filter
              (fun v => ctx.force_charge_vehicles.contains v.vehicle_id) :=
            List.mem_filter.mpr ⟨hv, hc⟩
          rcases alloc_match_exists 20 av _ v hvf with ⟨a, ha, he⟩
          exact absurd he (h2 a ha)
        · exact Or.inr ⟨hv, by simpa using hc⟩

theorem pipeline_step4_small (ctx : PipelineContext) (opp : OpportunityCostResult)
    (vehicles1 : List VehicleState) (av : ℚ) (parts : List String)
    (hav : max 0 av < 207 / 50)
    (hv1 : ∀ v' ∈ vehicles1,
      v'.allocated_amps = 0 ∨
        (v' ∈ ctx.vehicles ∧
          ctx.force_charge_vehicles.contains v'.vehicle_id = false)) :
    ∀ v ∈ (pipeline_step4 ctx opp vehicles1 av parts).1,
      v.allocated_amps = 0 := by
  simp only [pipeline_step4, allocate_power_to_vehicles]
  split_ifs with h1 h2
  · intro v hv
    have hsmall := allocGo_small 20
      (sortByPriority (ctx.vehicles.filter
        (fun v => ¬ ctx.force_charge_vehicles.contains v.vehicle_id))) (max 0 av) hav
    rw [applyAllocations_eq_map] at hv
    rcases List.mem_map.mp hv with ⟨v0, hv0, rfl⟩
    rcases writeAllocs_zero v0 _ hsmall.1 with hz | ⟨heq, hno⟩
    · exact hz
    · rw [heq]
      rcases hv1 v0 hv0 with hz0 | ⟨hmem, hnc⟩
      · exact hz0
      · exfalso
        have hvn : v0 ∈ ctx.vehicles.filter
            (fun v => ¬ ctx.force_charge_vehicles.contains v.vehicle_id) :=
          List.mem_filter.mpr ⟨hmem, by simpa using hnc⟩
        rcases alloc_match_exists 20 (max 0 av) _ v0 hvn with ⟨a, ha, he⟩
        exact absurd he (hno a ha)
  · intro v hv
    rcases List.mem_map.mp hv with ⟨v0, hv0, rfl⟩
    split_ifs with hm
    · rcases hv1 v0 hv0 with hz0 | ⟨_, hnc⟩
      · exact hz0
      · rw [hm] at hnc
        exact absurd hnc (by simp)
    · rfl
  · intro v hv
    rcases hv1 v hv with hz0 | ⟨hmem, hnc⟩
    · exact hz0
    · exfalso
      have hvn : v ∈ ctx.vehicles.filter
          (fun v => ¬ ctx.force_charge_vehicles.contains v.vehicle_id) :=
        List.mem_filter.mpr ⟨hmem, by simpa using hnc⟩
      have hne := List.ne_nil_of_mem hvn
      rw [not_ne_iff] at h2
      exact hne h2

/-- C4: in safe mode (grid meter unavailable, no blocking rule matched) the
capacity handed to the allocator is 6 * 230 / 1000 = 1.38 kW, which funds
at most truncation(1380 / 690) = 2 A of three-phase current, below the 6 A
minimum — so every vehicle, forced or normal, ends the cycle with 0 amps
despite charging being nominally permitted. -/
theorem c4_safe_mode_allocates_nothing (ctx : PipelineContext)
    (hgm : ctx.grid_meter_available = false)
    (hgr : ¬(ctx.grid_rewards_active = true ∧ ctx.battery_power_w < 0))
    (hobc : any_obc_active ctx = false) :
    truncQ (((SAFE_MODE_MAX_AMPS * 230 : ℤ) : ℚ) / 1000 * 1000 /
        ((VOLTAGE * NUM_PHASES : ℤ) : ℚ)) = 2 ∧
    (2 : ℤ) < MIN_CHARGING_AMPS ∧
    ∀ v ∈ (run_decision_pipeline ctx).1.vehicles, v.allocated_amps = 0 := by
  refine ⟨by norm_num [truncQ, SAFE_MODE_MAX_AMPS, VOLTAGE, NUM_PHASES],
    by norm_num [MIN_CHARGING_AMPS], ?_⟩
  have hsafety : SafetyCheck.evaluate ctx.grid_rewards_active ctx.battery_power_w
      ctx.grid_meter_available (any_obc_active ctx) =
      ⟨true, "grid_meter_unavailable_safe_mode", true, some SAFE_MODE_MAX_AMPS⟩ := by
    simp [SafetyCheck.evaluate, hgr, hobc, hgm]
  have hkey : (run_decision_pipeline ctx).1.vehicles =
      (pipeline_step4 ctx
        (evaluate_opportunity_cost ctx.current_export_price
          (find_cheapest_night_price ctx.night_prices) ctx.grid_fee_import
          ctx.grid_fee_export ctx.export_compensation ctx.vat_rate)
        (pipeline_step3 ctx (((SAFE_MODE_MAX_AMPS * 230 : ℤ) : ℚ) / 1000)).1
        (pipeline_step3 ctx (((SAFE_MODE_MAX_AMPS * 230 : ℤ) : ℚ) / 1000)).2.1
        (pipeline_step3 ctx (((SAFE_MODE_MAX_AMPS * 230 : ℤ) : ℚ) / 1000)).2.2).1 := by
    simp [run_decision_pipeline, hsafety, build_result]
  intro v hv
  rw [hkey] at hv
  obtain ⟨hcap, hv1⟩ := pipeline_step3_small ctx
    (((SAFE_MODE_MAX_AMPS * 230 : ℤ) : ℚ) / 1000)
    (by norm_num [SAFE_MODE_MAX_AMPS])
  refine pipeline_step4_small ctx _ _ _ _ ?_ hv1 v hv
  rw [hcap]
  norm_num [SAFE_MODE_MAX_AMPS]

/-- Concrete safe-mode pipeline context for the C4 witness: grid meter
unavailable, one connected force-charged vehicle below target. -/
def c4_ctx : PipelineContext :=
  { grid_power_w := 0, solar_power_w := 0, battery_power_w := 0,
    battery_soc := 50, grid_rewards_active := false, grid_meter_available := false,
    current_export_price := 1, current_import_price := 1, night_prices := [],
    grid_fee_import := 0, grid_fee_export := 0, export_compensation := 0,
    vat_rate := 1/4, power_limit_kw := 11,
    vehicles :=
      [{ vehicle_id := "car_s",
         name := "Car S",
         priority := 1,
         target_soc := 80,
         current_soc := some 50,
         departure_time := none,
         is_connected := true,
         soc_source_type := "api",
         soc_entity_id := some "sensor.car_s_soc",
         charger_entity_id := "sensor.car_s_charger",
         allocated_amps := 0,
         allocated_phases := 1 }],
    obc_tracker := ⟨[]⟩, calendar_hour_tracker := ⟨[], none⟩,
    force_charge_vehicles := ["car_s"], last_commands := [],
    utc_now_sec := 36000, mono_now := 1000 }

/-- The vehicle record c4_ctx's vehicle ends the safe-mode cycle as. -/
def c4_result_vehicle : VehicleState :=
  { vehicle_id := "car_s", name := "Car S", priority := 1, target_soc := 80,
    current_soc := some 50, departure_time := none, is_connected := true,
    soc_source_type := "api", soc_entity_id := some "sensor.car_s_soc",
    charger_entity_id := "sensor.car_s_charger", allocated_amps := 0,
    allocated_phases := 3 }

/-- Witness for C4: the safe-mode bound applied at the concrete context,
including the forced vehicle ending the cycle with 0 amps. -/
theorem c4_witness :
    truncQ (((SAFE_MODE_MAX_AMPS * 230 : ℤ) : ℚ) / 1000 * 1000 /
        ((VOLTAGE * NUM_PHASES : ℤ) : ℚ)) = 2 ∧
    c4_result_vehicle.allocated_amps = 0 := by
  have happ := c4_safe_mode_allocates_nothing c4_ctx rfl (by simp [c4_ctx])
    (by simp [any_obc_active, c4_ctx, OBCCooldownTracker.is_active])
  refine ⟨happ.1, ?_⟩
  apply happ.2.2
  have hvs : (run_decision_pipeline c4_ctx).1.vehicles = [c4_result_vehicle] := by
    repeat
      first
      | simp [run_decision_pipeline, c4_ctx, build_result, pipeline_step3,
          pipeline_step4, find_cheapest_night_price, SafetyCheck.evaluate,
          any_obc_active, OBCCooldownTracker.is_active, CalendarHourTracker.add_sample,
          CalendarHourTracker.available_capacity_kw, CalendarHourTracker.average_kw,
          allocate_power_to_vehicles, sortByPriority, insertByPriority, allocGo,
          VehicleState.needs_charge, applyAllocations, applyAllocationStep, hourOfDay,
          VOLTAGE, NUM_PHASES, MIN_CHARGING_AMPS, SAFE_MODE_MAX_AMPS,
          evaluate_opportunity_cost, c4_result_vehicle, String.intercalate,
          String.intercalate.go]
      | norm_num [truncQ]
  rw [hvs]
  simp

/-- Pipeline context for the C1 failing input: two connected vehicles below
target, car_a (priority 1) force-charged, car_b (priority 2) normal, empty
tracker, 11 kW ceiling, zero grid draw, no night prices. -/
def c1_ctx : PipelineContext :=
  { grid_power_w := 0, solar_power_w := 0, battery_power_w := 0,
    battery_soc := 50, grid_rewards_active := false, grid_meter_available := true,
    current_export_price := 1, current_import_price := 1, night_prices := [],
    grid_fee_import := 0, grid_fee_export := 0, export_compensation := 0,
    vat_rate := 1/4, power_limit_kw := 11,
    vehicles :=
      [{ vehicle_id := "car_a",
         name := "Car A",
         priority := 1,
         target_soc := 80,
         current_soc := some 50,
         departure_time := none,
         is_connected := true,
         soc_source_type := "api",
         soc_entity_id := some "sensor.car_a_soc",
         charger_entity_id := "sensor.car_a_charger",
         allocated_amps := 0,
         allocated_phases := 1 },
       { vehicle_id := "car_b",
         name := "Car B",
         priority := 2,
         target_soc := 80,
         current_soc := some 50,
         departure_time := none,
         is_connected := true,
         soc_source_type := "api",
         soc_entity_id := some "sensor.car_b_soc",
         charger_entity_id := "sensor.car_b_charger",
         allocated_amps := 0,
         allocated_phases := 1 }],
    obc_tracker := ⟨[]⟩, calendar_hour_tracker := ⟨[], none⟩,
    force_charge_vehicles := ["car_a"], last_commands := [],
    utc_now_sec := 36000, mono_now := 1000 }

/-- The normal vehicle of c1_ctx, used to show what stage 4 would have
produced under the claimed full three-phase deduction. -/
def c1_vehicle_b : VehicleState :=
  { vehicle_id := "car_b", name := "Car B", priority := 2, target_soc := 80,
    current_soc := some 50, departure_time := none, is_connected := true,
    soc_source_type := "api", soc_entity_id := some "sensor.car_b_soc",
    charger_entity_id := "sensor.car_b_charger", allocated_amps := 0,
    allocated_phases := 1 }

/-- C1 (code bug): at the failing input the forced vehicle gets 15 A
(10.35 kW three-phase) out of 11 kW available, but the orchestrator deducts
only 15 * 230 / 1000 = 3.45 kW — one phase's worth — so stage 4 still sees
7.55 kW and gives the normal vehicle 10 A.  The two allocations together
(17.25 kW) exceed the 11 kW that was available, while under the claimed
deduction of the full allocated power the normal pass would have had
0.65 kW and allocated 0 A. -/
theorem c1_forced_deduction_single_phase_bug :
    (run_decision_pipeline c1_ctx).1.vehicles.map
        (fun v => (v.vehicle_id, v.allocated_amps)) =
      [("car_a", 15), ("car_b", 10)] ∧
    (run_decision_pipeline c1_ctx).1.decision_reason =
      "force_charge | no_night_prices_available" ∧
    total_allocated_kw [⟨"car_a", 15, 3⟩, ⟨"car_b", 10, 3⟩] > 11 ∧
    (allocate_power_to_vehicles [c1_vehicle_b]
        (11 - total_allocated_kw [⟨"car_a", 15, 3⟩]) 20).map
      (fun a => a.amps) = [0] := by
  refine ⟨?_, ?_, by norm_num [total_allocated_kw], ?_⟩
  · repeat
      first
      | simp [run_decision_pipeline, c1_ctx, build_result, pipeline_step3,
          pipeline_step4, find_cheapest_night_price, SafetyCheck.evaluate,
          any_obc_active, OBCCooldownTracker.is_active, CalendarHourTracker.add_sample,
          CalendarHourTracker.available_capacity_kw, CalendarHourTracker.average_kw,
          allocate_power_to_vehicles, sortByPriority, insertByPriority, allocGo,
          VehicleState.needs_charge, applyAllocations, applyAllocationStep, hourOfDay,
          VOLTAGE, NUM_PHASES, MIN_CHARGING_AMPS, evaluate_opportunity_cost,
          String.intercalate, String.intercalate.go]
      | norm_num [truncQ]
  · repeat
      first
      | simp [run_decision_pipeline, c1_ctx, build_result, pipeline_step3,
          pipeline_step4, find_cheapest_night_price, SafetyCheck.evaluate,
          any_obc_active, OBCCooldownTracker.is_active, CalendarHourTracker.add_sample,
          CalendarHourTracker.available_capacity_kw, CalendarHourTracker.average_kw,
          allocate_power_to_vehicles, sortByPriority, insertByPriority, allocGo,
          VehicleState.needs_charge, applyAllocations, applyAllocationStep, hourOfDay,
          VOLTAGE, NUM_PHASES, MIN_CHARGING_AMPS, evaluate_opportunity_cost,
          String.intercalate, String.intercalate.go]
      | norm_num [truncQ]
  · repeat
      first
      | simp [allocate_power_to_vehicles, sortByPriority, insertByPriority, allocGo,
          c1_vehicle_b, VehicleState.needs_charge, total_allocated_kw,
          VOLTAGE, NUM_PHASES, MIN_CHARGING_AMPS]
      | norm_num [truncQ]
